import Mathlib

/-!
Verification of the identity-resolution and per-workspace resource layer of
the Graph2RAG service: credential store (`lightrag/api/user_manager.py`),
session tokens and login surface (`integrated_auth_server.py`), the
per-request identity middleware (`lightrag/api/workspace_middleware.py`),
and the lazy per-workspace engine registry (`lightrag_server_auth.py`).

Python dicts are embedded as association lists, timestamps as naturals,
the SHA-256 digest as an abstract function parameter `H`, and the HMAC
signature of a JWT as the (injective) pair of signing secret and payload.
The async registry is embedded as a small-step machine with one suspension
point, matching the single `await` in `get_or_create_rag`.
-/

namespace Graph2RAG

/-- Association-list lookup, the embedding of Python dict read `d[k]` / `d.get(k)`. -/
def alistGet {α : Type} : List (String × α) → String → Option α
  | [], _ => none
  | (k, v) :: rest, u => if k == u then some v else alistGet rest u

/-- Association-list write, the embedding of Python dict write `d[k] = v`. -/
def alistSet {α : Type} : List (String × α) → String → α → List (String × α)
  | [], u, v => [(u, v)]
  | (k, w) :: rest, u, v => if k == u then (k, v) :: rest else (k, w) :: alistSet rest u v

theorem alistGet_alistSet_self {α : Type} (l : List (String × α)) (u : String) (v : α) :
    alistGet (alistSet l u v) u = some v := by
  induction l with
  | nil => simp [alistGet, alistSet]
  | cons p rest ih =>
    obtain ⟨k, w⟩ := p
    by_cases h : k == u
    · simp [alistGet, alistSet, h]
    · simp [alistGet, alistSet, h, ih]

/-- The pydantic `User` model of `lightrag/api/user_manager.py`. -/
structure User where
  username : String
  email : String
  password_hash : String
  salt : String
  created_at : Nat
  last_login : Option Nat := none
  is_active : Bool := true
  workspace : String
  metadata : List (String × String) := []
deriving DecidableEq, Repr

/-- The in-memory user map `self.users` of `UserManager`. -/
abbrev Store := List (String × User)

/-- Embedding of `UserManager._hash_password`: digest of password concatenated with salt.
`H` abstracts the SHA-256 hex digest. -/
def hashPassword (H : String → String) (password salt : String) : String :=
  H (password ++ salt)

/-- Embedding of `UserManager.create_user`. The fresh random salt and the current time are
explicit parameters. Returns the HTTP-level result together with the updated
user map; on the 409 conflict path the map is returned untouched, as the
Python raise happens before any mutation. -/
def createUser (H : String → String) (st : Store)
    (username email password salt : String) (now : Nat) :
    Except (Nat × String) User × Store :=
  match alistGet st username with
  | some _ => (.error (409, "User " ++ username ++ " already exists"), st)
  | none =>
    let user : User :=
      { username := username
        email := email
        password_hash := hashPassword H password salt
        salt := salt
        created_at := now
        workspace := "user_" ++ username }
    (.ok user, alistSet st username user)

/-- Embedding of `UserManager.authenticate`. Returns `none` on unknown username, inactive
account, or hash mismatch; on success updates `last_login` in the map. -/
def authenticate (H : String → String) (st : Store)
    (username password : String) (now : Nat) : Option User × Store :=
  match alistGet st username with
  | none => (none, st)
  | some user =>
    if user.is_active = false then (none, st)
    else if hashPassword H password user.salt ≠ user.password_hash then (none, st)
    else
      let u' : User := { user with last_login := some now }
      (some u', alistSet st username u')

/-- The keyword arguments accepted by `UserManager.update_user`; the code only
ever reads the keys `email`, `is_active`, `metadata` and `password`. -/
structure UpdateFields where
  email : Option String := none
  is_active : Option Bool := none
  metadata : Option (List (String × String)) := none
  password : Option String := none
deriving DecidableEq, Repr

/-- Embedding of `UserManager.update_user`: applies the whitelisted fields, then
regenerates salt and hash when a password is supplied. -/
def updateUser (H : String → String) (st : Store) (username : String)
    (kw : UpdateFields) (newSalt : String) : Option User × Store :=
  match alistGet st username with
  | none => (none, st)
  | some user =>
    let u1 : User :=
      { user with
        email := kw.email.getD user.email
        is_active := kw.is_active.getD user.is_active
        metadata := kw.metadata.getD user.metadata }
    let u2 : User :=
      match kw.password with
      | none => u1
      | some pw => { u1 with salt := newSalt, password_hash := hashPassword H pw newSalt }
    (some u2, alistSet st username u2)

/-- Claim C2: creating a fresh user and then authenticating with the same
password succeeds and yields a record whose workspace is "user_" ++ username. -/
theorem create_then_authenticate_workspace (H : String → String) (st : Store)
    (username email password salt : String) (now now' : Nat)
    (h : alistGet st username = none) :
    (createUser H st username email password salt now).1.isOk = true ∧
    ((authenticate H (createUser H st username email password salt now).2
        username password now').1).map User.workspace = some ("user_" ++ username) := by
  constructor
  · simp [createUser, h, Except.isOk, Except.toBool]
  · simp [createUser, h, authenticate, alistGet_alistSet_self]

theorem create_then_authenticate_workspace_witness :
    (createUser (fun s => s) [] "alice" "alice@example.com" "secret1" "s16" 0).1.isOk = true ∧
    ((authenticate (fun s => s)
        (createUser (fun s => s) [] "alice" "alice@example.com" "secret1" "s16" 0).2
        "alice" "secret1" 1).1).map User.workspace = some ("user_" ++ "alice") :=
  create_then_authenticate_workspace (fun s => s) [] "alice" "alice@example.com"
    "secret1" "s16" 0 1 rfl

/-- Claim C5: creating a user under an existing username fails with a 409
conflict and leaves the user map unchanged. -/
theorem create_user_conflict_unchanged (H : String → String) (st : Store)
    (username email password salt : String) (now : Nat)
    (h : (alistGet st username).isSome = true) :
    (createUser H st username email password salt now).1 =
      .error (409, "User " ++ username ++ " already exists") ∧
    (createUser H st username email password salt now).2 = st := by
  obtain ⟨u, hu⟩ := Option.isSome_iff_exists.mp h
  simp [createUser, hu]

theorem create_user_conflict_unchanged_witness :
    (createUser (fun s => s)
        (createUser (fun s => s) [] "bob" "b@x" "pw" "s1" 0).2 "bob" "c@y" "pw2" "s2" 1).1 =
      .error (409, "User " ++ "bob" ++ " already exists") ∧
    (createUser (fun s => s)
        (createUser (fun s => s) [] "bob" "b@x" "pw" "s1" 0).2 "bob" "c@y" "pw2" "s2" 1).2 =
      (createUser (fun s => s) [] "bob" "b@x" "pw" "s1" 0).2 :=
  create_user_conflict_unchanged (fun s => s) _ "bob" "c@y" "pw2" "s2" 1 rfl

/-- The payload built by `create_token` in `integrated_auth_server.py`:
subject, expiry, workspace and email. Time is in seconds. -/
structure TokenPayload where
  sub : String
  exp : Nat
  workspace : String
  email : String
deriving DecidableEq, Repr

/-- A JWT as produced by `jwt.encode`: the payload plus its HMAC signature.
The HMAC is embedded as the pair of signing secret and signed payload, the
standard idealisation of an unforgeable MAC: two signatures agree exactly
when both secret and payload agree. -/
structure JwtToken where
  payload : TokenPayload
  sig : String × TokenPayload
deriving DecidableEq, Repr

/-- Embedding of `jwt.encode(payload, secret, algorithm)`. -/
def jwtEncode (secret : String) (p : TokenPayload) : JwtToken :=
  ⟨p, (secret, p)⟩

/-- The two error kinds `jwt.decode` can raise here: `InvalidSignatureError`
and `ExpiredSignatureError`, both subclasses of `PyJWTError`. -/
inductive JwtError where
  | invalidSignature
  | expiredSignature
deriving DecidableEq, Repr

/-- Embedding of `jwt.decode(token, secret, algorithms)`: checks the signature, then the
`exp` claim. PyJWT's `_validate_exp` raises `ExpiredSignatureError` when
`exp <= now - leeway` (RFC 7519: the current time must be strictly before
`exp`), so with zero leeway the token is expired exactly when `exp ≤ now`. -/
def jwtDecode (secret : String) (now : Nat) (t : JwtToken) : Except JwtError TokenPayload :=
  if t.sig ≠ (secret, t.payload) then .error .invalidSignature
  else if t.payload.exp ≤ now then .error .expiredSignature
  else .ok t.payload

/-- A record of the hard-coded `USERS` table of `integrated_auth_server.py`. -/
structure AuthUser where
  password : String
  email : String
  workspace : String
deriving DecidableEq, Repr

/-- The hard-coded `USERS` table of `integrated_auth_server.py`. -/
def USERS : List (String × AuthUser) :=
  [("admin", ⟨"admin123", "admin@bosch.com", "user_admin"⟩),
   ("demo", ⟨"demo123", "demo@bosch.com", "user_demo"⟩),
   ("waiyan", ⟨"password123", "waiyan@bosch.com", "user_waiyan"⟩)]

/-- Membership lookup `username in USERS` / `USERS[username]`. -/
def usersLookup (u : String) : Option AuthUser :=
  alistGet USERS u

/-- The 48-hour token lifetime of `create_token`, in seconds. -/
def tokenTTL : Nat := 48 * 3600

/-- Embedding of `create_token(username)`: signs sub, exp = now + 48h, workspace, email.
Indexing `USERS[username]` is partial, hence the `Option`. -/
def createToken (secret : String) (now : Nat) (username : String) : Option JwtToken :=
  (usersLookup username).map fun r =>
    jwtEncode secret { sub := username, exp := now + tokenTTL,
                       workspace := r.workspace, email := r.email }

/-- Embedding of `verify_token(token)`: any `PyJWTError` from `jwt.decode` — expired and
invalid signature alike — is converted to one HTTP 401 "Invalid token". -/
def verifyToken (secret : String) (now : Nat) (t : JwtToken) :
    Except (Nat × String) TokenPayload :=
  match jwtDecode secret now t with
  | .ok p => .ok p
  | .error _ => .error (401, "Invalid token")

/-- The `LoginRequest` body of the `/auth/login` endpoint. -/
structure LoginRequest where
  username : String
  password : String
deriving DecidableEq, Repr

/-- The `LoginResponse` model of `integrated_auth_server.py`. -/
structure LoginResponse where
  access_token : JwtToken
  token_type : String := "bearer"
  username : String
  message : String
  redirect_url : String
deriving DecidableEq, Repr

/-- The `/auth/login` handler of `integrated_auth_server.py`: unknown
username and wrong password both raise the same 401 with the same detail. -/
def loginEndpoint (secret : String) (now : Nat) (req : LoginRequest) :
    Except (Nat × String) LoginResponse :=
  match usersLookup req.username with
  | none => .error (401, "Invalid username or password")
  | some r =>
    if r.password ≠ req.password then .error (401, "Invalid username or password")
    else
      match createToken secret now req.username with
      | none => .error (500, "KeyError")
      | some t =>
        .ok { access_token := t
              username := req.username
              message := "Welcome " ++ req.username ++ "!"
              redirect_url := "http://localhost:9622/dashboard?user=" ++ req.username }

/-- Claim C3 counterexample: at the `verify_token` surface the expired-token
failure and the wrong-secret failure are the SAME error (401, "Invalid
token"), so the claimed distinct "Expired token" failure kind does not exist:
a token with expiry `tokenTTL` checked at `tokenTTL + 1` yields exactly what
a token signed under a different secret yields. -/
theorem verify_token_failures_indistinct :
    verifyToken "bosch-graph2rag-secret-2025" (tokenTTL + 1)
        (jwtEncode "bosch-graph2rag-secret-2025"
          ⟨"admin", tokenTTL, "user_admin", "admin@bosch.com"⟩) =
      verifyToken "bosch-graph2rag-secret-2025" 0
        (jwtEncode "other-secret"
          ⟨"admin", tokenTTL, "user_admin", "admin@bosch.com"⟩) ∧
    verifyToken "bosch-graph2rag-secret-2025" (tokenTTL + 1)
        (jwtEncode "bosch-graph2rag-secret-2025"
          ⟨"admin", tokenTTL, "user_admin", "admin@bosch.com"⟩) =
      .error (401, "Invalid token") := by
  constructor <;> rfl

/-- Claim C3 (amended): a token issued by `create_token` carries the issued
claims and validates successfully at issue time and at any time strictly
before its expiry, returning exactly those claims; validation at or past
the expiry fails, and validation of a token signed with a different secret
fails, but both failures surface as the one 401 "Invalid token" error. -/
theorem token_issue_validate_lifecycle (secret s' : String) (u : String)
    (r : AuthUser) (now t : Nat) (hu : usersLookup u = some r) :
    (createToken secret now u =
      some (jwtEncode secret ⟨u, now + tokenTTL, r.workspace, r.email⟩)) ∧
    (t < now + tokenTTL →
      verifyToken secret t (jwtEncode secret ⟨u, now + tokenTTL, r.workspace, r.email⟩) =
        .ok ⟨u, now + tokenTTL, r.workspace, r.email⟩) ∧
    (now + tokenTTL ≤ t →
      verifyToken secret t (jwtEncode secret ⟨u, now + tokenTTL, r.workspace, r.email⟩) =
        .error (401, "Invalid token")) ∧
    (s' ≠ secret → ∀ p : TokenPayload,
      verifyToken secret t (jwtEncode s' p) = .error (401, "Invalid token")) := by
  refine ⟨by simp [createToken, hu], fun hlt => ?_, fun hle => ?_, fun hs p => ?_⟩
  · simp [verifyToken, jwtDecode, jwtEncode, Nat.not_le.mpr hlt]
  · simp [verifyToken, jwtDecode, jwtEncode, hle]
  · simp [verifyToken, jwtDecode, jwtEncode, hs]

theorem token_issue_validate_lifecycle_witness :
    (createToken "sec" 0 "demo" =
      some (jwtEncode "sec" ⟨"demo", 0 + tokenTTL, "user_demo", "demo@bosch.com"⟩)) ∧
    (0 < 0 + tokenTTL →
      verifyToken "sec" 0 (jwtEncode "sec" ⟨"demo", 0 + tokenTTL, "user_demo", "demo@bosch.com"⟩) =
        .ok ⟨"demo", 0 + tokenTTL, "user_demo", "demo@bosch.com"⟩) ∧
    (0 + tokenTTL ≤ 0 →
      verifyToken "sec" 0 (jwtEncode "sec" ⟨"demo", 0 + tokenTTL, "user_demo", "demo@bosch.com"⟩) =
        .error (401, "Invalid token")) ∧
    ("bad" ≠ "sec" → ∀ p : TokenPayload,
      verifyToken "sec" 0 (jwtEncode "bad" p) = .error (401, "Invalid token")) :=
  token_issue_validate_lifecycle "sec" "bad" "demo"
    ⟨"demo123", "demo@bosch.com", "user_demo"⟩ 0 0 rfl

/-- Claim C7: every failed authentication — unknown username, inactive
account, or password-hash mismatch — returns `none` from
`UserManager.authenticate`, so unknown-username and wrong-password results
are equal (indistinguishable); and at the `/auth/login` surface of
`integrated_auth_server.py` both render as the same 401 error with the
single generic detail "Invalid username or password". -/
theorem authenticate_failure_indistinguishable :
    (∀ (H : String → String) (st : Store) (u p : String) (now : Nat),
      alistGet st u = none → (authenticate H st u p now).1 = none) ∧
    (∀ (H : String → String) (st : Store) (u p : String) (now : Nat) (user : User),
      alistGet st u = some user → user.is_active = false →
      (authenticate H st u p now).1 = none) ∧
    (∀ (H : String → String) (st : Store) (u p : String) (now : Nat) (user : User),
      alistGet st u = some user → hashPassword H p user.salt ≠ user.password_hash →
      (authenticate H st u p now).1 = none) ∧
    (∀ (secret : String) (now : Nat) (req : LoginRequest),
      usersLookup req.username = none →
      loginEndpoint secret now req = .error (401, "Invalid username or password")) ∧
    (∀ (secret : String) (now : Nat) (req : LoginRequest) (r : AuthUser),
      usersLookup req.username = some r → r.password ≠ req.password →
      loginEndpoint secret now req = .error (401, "Invalid username or password")) := by
  refine ⟨fun H st u p now h => ?_, fun H st u p now user h hact => ?_,
          fun H st u p now user h hmis => ?_, fun secret now req h => ?_,
          fun secret now req r h hp => ?_⟩
  · simp [authenticate, h]
  · simp [authenticate, h, hact]
  · cases hact : user.is_active with
    | false => simp [authenticate, h, hact]
    | true => simp [authenticate, h, hact, hmis]
  · simp [loginEndpoint, h]
  · simp [loginEndpoint, h, hp]

theorem authenticate_failure_indistinguishable_witness :
    (authenticate (fun s => s) [] "ghost" "pw" 0).1 = none ∧
    loginEndpoint "sec" 0 ⟨"ghost", "pw"⟩ = .error (401, "Invalid username or password") ∧
    loginEndpoint "sec" 0 ⟨"admin", "wrong"⟩ = .error (401, "Invalid username or password") :=
  ⟨authenticate_failure_indistinguishable.1 (fun s => s) [] "ghost" "pw" 0 rfl,
   authenticate_failure_indistinguishable.2.2.2.1 "sec" 0 ⟨"ghost", "pw"⟩ rfl,
   authenticate_failure_indistinguishable.2.2.2.2 "sec" 0 ⟨"admin", "wrong"⟩
     ⟨"admin123", "admin@bosch.com", "user_admin"⟩ rfl (by decide)⟩

/-- Claim C9: `update_user` on a present user changes only email, is_active
and metadata (to the supplied values, defaulting to the old ones), plus salt
and hash exactly when a password is supplied; username, workspace, created_at
and last_login are unchanged; on an absent user it returns `None` and leaves
the map untouched. -/
theorem update_user_frame :
    (∀ (H : String → String) (st : Store) (username : String)
        (kw : UpdateFields) (newSalt : String) (user : User),
      alistGet st username = some user →
      ((updateUser H st username kw newSalt).1.map User.username = some user.username ∧
       (updateUser H st username kw newSalt).1.map User.workspace = some user.workspace ∧
       (updateUser H st username kw newSalt).1.map User.created_at = some user.created_at ∧
       (updateUser H st username kw newSalt).1.map User.last_login = some user.last_login ∧
       (updateUser H st username kw newSalt).1.map User.email =
         some (kw.email.getD user.email) ∧
       (updateUser H st username kw newSalt).1.map User.is_active =
         some (kw.is_active.getD user.is_active) ∧
       (updateUser H st username kw newSalt).1.map User.metadata =
         some (kw.metadata.getD user.metadata) ∧
       (kw.password = none →
         (updateUser H st username kw newSalt).1.map User.salt = some user.salt ∧
         (updateUser H st username kw newSalt).1.map User.password_hash =
           some user.password_hash) ∧
       (∀ pw, kw.password = some pw →
         (updateUser H st username kw newSalt).1.map User.salt = some newSalt ∧
         (updateUser H st username kw newSalt).1.map User.password_hash =
           some (hashPassword H pw newSalt)))) ∧
    (∀ (H : String → String) (st : Store) (username : String)
        (kw : UpdateFields) (newSalt : String),
      alistGet st username = none →
      updateUser H st username kw newSalt = (none, st)) := by
  constructor
  · intro H st username kw newSalt user h
    cases hpw : kw.password with
    | none =>
      refine ⟨?_, ?_, ?_, ?_, ?_, ?_, ?_, fun _ => ⟨?_, ?_⟩, fun pw hpw' => ?_⟩ <;>
        simp_all [updateUser]
    | some pw =>
      refine ⟨?_, ?_, ?_, ?_, ?_, ?_, ?_, fun hc => ?_, fun pw' hpw' => ?_⟩ <;>
        simp_all [updateUser]
  · intro H st username kw newSalt h
    simp [updateUser, h]

theorem update_user_frame_witness :
    (updateUser (fun s => s)
        (createUser (fun s => s) [] "carol" "c@x" "pw" "s1" 5).2 "carol"
        { email := some "new@x", password := some "pw2" } "s2").1.map User.workspace =
      some "user_carol" ∧
    updateUser (fun s => s) [] "nobody" {} "s9" = (none, []) := by
  constructor
  · have h := update_user_frame.1 (fun s => s)
      (createUser (fun s => s) [] "carol" "c@x" "pw" "s1" 5).2 "carol"
      { email := some "new@x", password := some "pw2" } "s2"
      ((createUser (fun s => s) [] "carol" "c@x" "pw" "s1" 5).1.toOption.getD
        { username := "", email := "", password_hash := "", salt := "",
          created_at := 0, workspace := "" }) rfl
    exact h.2.1
  · exact update_user_frame.2 (fun s => s) [] "nobody" {} "s9" rfl

/-- The result of `auth_handler.validate_token` as read by the middleware:
the `username` key and the optional `metadata["workspace"]` entry. -/
structure TokenData where
  username : String
  metadataWorkspace : Option String
deriving DecidableEq, Repr

/-- The request fields `WorkspaceMiddleware.dispatch` reads: the URL path and
the `Authorization` and `X-API-Key` headers (absent headers are `none`). -/
structure MwRequest where
  path : String
  authHeader : Option String
  xApiKey : Option String
deriving DecidableEq, Repr

/-- The per-request identity outcome of the middleware: bypassed (whitelisted
path), authenticated user with a workspace, static-API-key caller
("api_user", workspace `None`), anonymous (workspace `None`), or an HTTP
rejection raised from the middleware. -/
inductive Outcome where
  | bypassed
  | authenticated (username : String) (workspace : String)
  | apiKeyAuthenticated
  | anonymous
  | rejected (code : Nat) (detail : String)
deriving DecidableEq, Repr

/-- Character-list initial-segment test, used to embed Python's
`str.startswith`. -/
def listIsInit : List Char → List Char → Bool
  | [], _ => true
  | _ :: _, [] => false
  | a :: as, b :: bs => a == b && listIsInit as bs

/-- Python `s.startswith(p)`. -/
def strStartsWith (s p : String) : Bool :=
  listIsInit p.data s.data

/-- Python falsiness of `token_data["metadata"].get("workspace")`: `None` and
the empty string both trigger the credential-store fallback. -/
def isFalsyStr : Option String → Bool
  | none => true
  | some s => s == ""

/-- Python truthiness of `global_args.api_key`: enforcement is on exactly
when a non-empty key is configured. -/
def apiKeyTruthy : Option String → Bool
  | none => false
  | some k => !(k == "")

/-- Embedding of `auth_header.split(" ")[1]`: the token part of a Bearer header. -/
def bearerToken (h : String) : String :=
  (h.splitOn " ").getD 1 ""

/-- The body of the middleware's `try` block: validate the token, read the
workspace from the claims, fall back to `user_manager.get_user_workspace`
when the claim is falsy. Any error — from validation or from the workspace
lookup — escapes to the single `except` handler. -/
def resolveBearer (validateTok : String → Except (Nat × String) TokenData)
    (getWs : String → Except (Nat × String) String) (token : String) :
    Except (Nat × String) (String × String) :=
  match validateTok token with
  | .error e => .error e
  | .ok td =>
    match
      (if isFalsyStr td.metadataWorkspace then getWs td.username
       else .ok (td.metadataWorkspace.getD "")) with
    | .error e => .error e
    | .ok w => .ok (td.username, w)

/-- The no-Authorization-header branch of `dispatch`: with a configured key,
a matching `X-API-Key` header authenticates as "api_user", anything else is
a 401; with no configured key the request proceeds anonymously. -/
def dispatchNoAuth (apiKey : Option String) (req : MwRequest) : Outcome :=
  if apiKeyTruthy apiKey then
    if req.xApiKey == apiKey then .apiKeyAuthenticated
    else .rejected 401 "Authentication required"
  else .anonymous

/-- Embedding of `WorkspaceMiddleware.dispatch` of `lightrag/api/workspace_middleware.py`
as the per-request identity classification it computes. `validateTok`
abstracts `auth_handler.validate_token` and `getWs` abstracts
`user_manager.get_user_workspace`; both report failure as an HTTP-style
(status, detail) error. -/
def dispatch (whitelist : List String) (apiKey : Option String)
    (validateTok : String → Except (Nat × String) TokenData)
    (getWs : String → Except (Nat × String) String)
    (req : MwRequest) : Outcome :=
  if whitelist.any (fun wp => strStartsWith req.path wp) then .bypassed
  else
    match req.authHeader with
    | some h =>
      if strStartsWith h "Bearer " then
        match resolveBearer validateTok getWs (bearerToken h) with
        | .ok (u, w) => .authenticated u w
        | .error _ =>
          if apiKeyTruthy apiKey then .rejected 401 "Invalid authentication"
          else .anonymous
      else dispatchNoAuth apiKey req
    | none => dispatchNoAuth apiKey req

/-- Claim C4: the middleware classifies each request in strict priority
order — whitelisted path bypasses resolution; else a Bearer token is
validated, giving the authenticated user and workspace (taken from the
claims, or from the credential store when the claims lack one), and on any
token failure a 401 when a static API key is configured or anonymous when
not; else, with a key configured, a matching X-API-Key header yields the
api-key identity and a non-matching one a 401; else the request is
anonymous. -/
theorem dispatch_priority_classification (wl : List String) (apiKey : Option String)
    (v : String → Except (Nat × String) TokenData)
    (g : String → Except (Nat × String) String) :
    (∀ req : MwRequest, wl.any (fun wp => strStartsWith req.path wp) = true →
      dispatch wl apiKey v g req = .bypassed) ∧
    (∀ (req : MwRequest) (h u w : String),
      wl.any (fun wp => strStartsWith req.path wp) = false →
      req.authHeader = some h → strStartsWith h "Bearer " = true →
      v (bearerToken h) = .ok ⟨u, some w⟩ → w ≠ "" →
      dispatch wl apiKey v g req = .authenticated u w) ∧
    (∀ (req : MwRequest) (h u w : String) (mw : Option String),
      wl.any (fun wp => strStartsWith req.path wp) = false →
      req.authHeader = some h → strStartsWith h "Bearer " = true →
      v (bearerToken h) = .ok ⟨u, mw⟩ → isFalsyStr mw = true → g u = .ok w →
      dispatch wl apiKey v g req = .authenticated u w) ∧
    (∀ (req : MwRequest) (h k : String) (e : Nat × String),
      wl.any (fun wp => strStartsWith req.path wp) = false →
      req.authHeader = some h → strStartsWith h "Bearer " = true →
      v (bearerToken h) = .error e → apiKey = some k → k ≠ "" →
      dispatch wl apiKey v g req = .rejected 401 "Invalid authentication") ∧
    (∀ (req : MwRequest) (h : String) (e : Nat × String),
      wl.any (fun wp => strStartsWith req.path wp) = false →
      req.authHeader = some h → strStartsWith h "Bearer " = true →
      v (bearerToken h) = .error e → apiKeyTruthy apiKey = false →
      dispatch wl apiKey v g req = .anonymous) ∧
    (∀ (req : MwRequest) (k : String),
      wl.any (fun wp => strStartsWith req.path wp) = false →
      (∀ h, req.authHeader = some h → strStartsWith h "Bearer " = false) →
      apiKey = some k → k ≠ "" → req.xApiKey = some k →
      dispatch wl apiKey v g req = .apiKeyAuthenticated) ∧
    (∀ (req : MwRequest) (k : String),
      wl.any (fun wp => strStartsWith req.path wp) = false →
      (∀ h, req.authHeader = some h → strStartsWith h "Bearer " = false) →
      apiKey = some k → k ≠ "" → req.xApiKey ≠ some k →
      dispatch wl apiKey v g req = .rejected 401 "Authentication required") ∧
    (∀ req : MwRequest,
      wl.any (fun wp => strStartsWith req.path wp) = false →
      (∀ h, req.authHeader = some h → strStartsWith h "Bearer " = false) →
      apiKeyTruthy apiKey = false →
      dispatch wl apiKey v g req = .anonymous) := by
  have hnoauth : ∀ (req : MwRequest),
      wl.any (fun wp => strStartsWith req.path wp) = false →
      (∀ h, req.authHeader = some h → strStartsWith h "Bearer " = false) →
      dispatch wl apiKey v g req = dispatchNoAuth apiKey req := by
    intro req hwl hnb
    cases hah : req.authHeader with
    | none => simp [dispatch, hwl, hah]
    | some h => simp [dispatch, hwl, hah, hnb h hah]
  refine ⟨fun req hwl => by simp [dispatch, hwl],
          fun req h u w hwl hah hb hv hw => ?_,
          fun req h u w mw hwl hah hb hv hf hg => ?_,
          fun req h k e hwl hah hb hv hk hke => ?_,
          fun req h e hwl hah hb hv hk => ?_,
          fun req k hwl hnb hk hke hx => ?_,
          fun req k hwl hnb hk hke hx => ?_,
          fun req hwl hnb hk => ?_⟩
  · have hf : isFalsyStr (some w) = false := by simp [isFalsyStr, hw]
    simp [dispatch, hwl, hah, hb, resolveBearer, hv, hf]
  · simp [dispatch, hwl, hah, hb, resolveBearer, hv, hf, hg]
  · have : apiKeyTruthy apiKey = true := by simp [apiKeyTruthy, hk, hke]
    simp [dispatch, hwl, hah, hb, resolveBearer, hv, this]
  · simp [dispatch, hwl, hah, hb, resolveBearer, hv, hk]
  · have ht : apiKeyTruthy apiKey = true := by simp [apiKeyTruthy, hk, hke]
    have hx' : (req.xApiKey == apiKey) = true := by simp [hx, hk]
    rw [hnoauth req hwl hnb]
    simp [dispatchNoAuth, ht, hx']
  · have ht : apiKeyTruthy apiKey = true := by simp [apiKeyTruthy, hk, hke]
    have hx' : (req.xApiKey == apiKey) = false := by
      subst hk
      simpa using hx
    rw [hnoauth req hwl hnb]
    simp [dispatchNoAuth, ht, hx']
  · rw [hnoauth req hwl hnb]
    simp [dispatchNoAuth, hk]

theorem dispatch_priority_classification_witness :
    dispatch ["/health"] (some "k") (fun _ => .ok ⟨"alice", some "user_alice"⟩)
        (fun _ => .ok "ws") ⟨"/health/x", none, none⟩ = .bypassed ∧
    dispatch ["/health"] (some "k") (fun _ => .ok ⟨"alice", some "user_alice"⟩)
        (fun _ => .ok "ws") ⟨"/query", some "Bearer t", none⟩ =
      .authenticated "alice" "user_alice" ∧
    dispatch ["/health"] (some "k") (fun _ => .ok ⟨"alice", none⟩)
        (fun _ => .ok "user_alice") ⟨"/query", some "Bearer t", none⟩ =
      .authenticated "alice" "user_alice" ∧
    dispatch ["/health"] (some "k") (fun _ => .error (401, "bad"))
        (fun _ => .ok "ws") ⟨"/query", some "Bearer t", none⟩ =
      .rejected 401 "Invalid authentication" ∧
    dispatch ["/health"] none (fun _ => .error (401, "bad"))
        (fun _ => .ok "ws") ⟨"/query", some "Bearer t", none⟩ = .anonymous ∧
    dispatch ["/health"] (some "k") (fun _ => .ok ⟨"alice", some "user_alice"⟩)
        (fun _ => .ok "ws") ⟨"/query", none, some "k"⟩ = .apiKeyAuthenticated ∧
    dispatch ["/health"] (some "k") (fun _ => .ok ⟨"alice", some "user_alice"⟩)
        (fun _ => .ok "ws") ⟨"/query", none, none⟩ =
      .rejected 401 "Authentication required" ∧
    dispatch ["/health"] none (fun _ => .ok ⟨"alice", some "user_alice"⟩)
        (fun _ => .ok "ws") ⟨"/query", none, none⟩ = .anonymous := by
  have hc := dispatch_priority_classification ["/health"] (some "k")
    (fun _ => .ok ⟨"alice", some "user_alice"⟩) (fun _ => .ok "ws")
  have hc2 := dispatch_priority_classification ["/health"] (some "k")
    (fun _ => .ok ⟨"alice", none⟩) (fun _ => .ok "user_alice")
  have hc3 := dispatch_priority_classification ["/health"] (some "k")
    (fun _ => .error (401, "bad")) (fun _ => .ok "ws")
  have hc4 := dispatch_priority_classification ["/health"] none
    (fun _ => .error (401, "bad")) (fun _ => .ok "ws")
  have hc5 := dispatch_priority_classification ["/health"] none
    (fun _ => .ok ⟨"alice", some "user_alice"⟩) (fun _ => .ok "ws")
  exact ⟨hc.1 ⟨"/health/x", none, none⟩ rfl,
    hc.2.1 ⟨"/query", some "Bearer t", none⟩ "Bearer t" "alice" "user_alice"
      rfl rfl rfl rfl (by decide),
    hc2.2.2.1 ⟨"/query", some "Bearer t", none⟩ "Bearer t" "alice" "user_alice" none
      rfl rfl rfl rfl rfl rfl,
    hc3.2.2.2.1 ⟨"/query", some "Bearer t", none⟩ "Bearer t" "k" (401, "bad")
      rfl rfl rfl rfl rfl (by decide),
    hc4.2.2.2.2.1 ⟨"/query", some "Bearer t", none⟩ "Bearer t" (401, "bad")
      rfl rfl rfl rfl rfl,
    hc.2.2.2.2.2.1 ⟨"/query", none, some "k"⟩ "k" rfl (fun h hh => by cases hh) rfl
      (by decide) rfl,
    hc.2.2.2.2.2.2.1 ⟨"/query", none, none⟩ "k" rfl (fun h hh => by cases hh) rfl
      (by decide) (by decide),
    hc5.2.2.2.2.2.2.2 ⟨"/query", none, none⟩ rfl (fun h hh => by cases hh) rfl⟩

/-- Claim C10: when a valid Bearer token lacks a workspace claim and the
credential-store workspace lookup fails with a 404 (user deleted since token
issuance), the middleware's catch-all handler turns the failure into a 401
when a static API key is configured, or anonymous otherwise; no 404 is ever
raised from the middleware. -/
theorem middleware_swallows_user_not_found (wl : List String) (apiKey : Option String)
    (v : String → Except (Nat × String) TokenData)
    (g : String → Except (Nat × String) String)
    (req : MwRequest) (h u : String) (mw : Option String) (msg : String)
    (hwl : wl.any (fun wp => strStartsWith req.path wp) = false)
    (hah : req.authHeader = some h) (hb : strStartsWith h "Bearer " = true)
    (hv : v (bearerToken h) = .ok ⟨u, mw⟩) (hf : isFalsyStr mw = true)
    (hg : g u = .error (404, msg)) :
    dispatch wl apiKey v g req =
      (if apiKeyTruthy apiKey then Outcome.rejected 401 "Invalid authentication"
       else Outcome.anonymous) ∧
    ∀ d, dispatch wl apiKey v g req ≠ .rejected 404 d := by
  have hd : dispatch wl apiKey v g req =
      (if apiKeyTruthy apiKey then Outcome.rejected 401 "Invalid authentication"
       else Outcome.anonymous) := by
    simp [dispatch, hwl, hah, hb, resolveBearer, hv, hf, hg]
  refine ⟨hd, fun d => ?_⟩
  rw [hd]
  cases hak : apiKeyTruthy apiKey <;> simp

theorem middleware_swallows_user_not_found_witness :
    dispatch ["/health"] (some "k") (fun _ => .ok ⟨"bob", none⟩)
        (fun _ => .error (404, "User bob not found")) ⟨"/query", some "Bearer t", none⟩ =
      (if apiKeyTruthy (some "k") then Outcome.rejected 401 "Invalid authentication"
       else Outcome.anonymous) ∧
    ∀ d, dispatch ["/health"] (some "k") (fun _ => .ok ⟨"bob", none⟩)
        (fun _ => .error (404, "User bob not found")) ⟨"/query", some "Bearer t", none⟩ ≠
      .rejected 404 d :=
  middleware_swallows_user_not_found ["/health"] (some "k")
    (fun _ => .ok ⟨"bob", none⟩) (fun _ => .error (404, "User bob not found"))
    ⟨"/query", some "Bearer t", none⟩ "Bearer t" "bob" none "User bob not found"
    rfl rfl rfl rfl rfl rfl

/-- The module-level state touched by `get_or_create_rag` in
`lightrag_server_auth.py`: the `rag_instances` dict (engine handles are
numbered by creation order), the next fresh handle id, and how many engine
constructions (`LightRAG(...)` plus `initialize_storages`) have occurred. -/
structure RegState where
  cache : List (String × Nat)
  nextId : Nat
  constructions : Nat
deriving DecidableEq, Repr

/-- One task running `get_or_create_rag`, between its suspension points.
`start` is a call that has not run yet; `publish` is a call suspended at
`await rag.initialize_storages()` holding its freshly built engine, which on
resumption writes the cache and returns; `done` holds the returned handle. -/
inductive RagTask where
  | start (workspace : Option String)
  | publish (workspace : String) (ragId : Nat)
  | done (result : Nat)
deriving DecidableEq, Repr

/-- Embedding of `if workspace is None: workspace = "default"`. -/
def canonWorkspace : Option String → String
  | none => "default"
  | some w => w

/-- One atomic segment of `get_or_create_rag` under cooperative scheduling.
From `start`: the membership test and, on a miss, directory creation and
engine construction run without suspension, then the task suspends at
`await rag.initialize_storages()`; on a hit the cached handle is returned
immediately with no suspension and no construction. From `publish`: the task
resumes, stores its engine in `rag_instances` and returns
`rag_instances[workspace]`, which is the handle it just wrote. -/
def regStep (st : RegState) (t : RagTask) : RegState × RagTask :=
  match t with
  | .start w =>
    let ws := canonWorkspace w
    match alistGet st.cache ws with
    | some i => (st, .done i)
    | none =>
      ({ st with nextId := st.nextId + 1, constructions := st.constructions + 1 },
       .publish ws st.nextId)
  | .publish ws ragId =>
    ({ st with cache := alistSet st.cache ws ragId }, .done ragId)
  | .done r => (st, .done r)

/-- A cooperative scheduler: runs the named task for one atomic segment at
each schedule entry. -/
def runSched : List Nat → RegState → List RagTask → RegState × List RagTask
  | [], st, ts => (st, ts)
  | i :: rest, st, ts =>
    match ts.get? i with
    | none => runSched rest st ts
    | some t =>
      let p := regStep st t
      runSched rest p.1 (ts.set i p.2)

/-- The empty registry at startup. -/
def raceInit : RegState := { cache := [], nextId := 0, constructions := 0 }

/-- Claim C1 (violated by the code): two concurrent `get_or_create_rag`
calls for "tenantA" on an empty registry, interleaved at the
`initialize_storages` suspension point, perform TWO engine constructions and
return two DIFFERENT handles (0 and 1) — the membership test of each call
runs before either publishes, so the check-then-act race defeats the
claimed single-flight guarantee. -/
theorem get_or_create_rag_duplicate_construction :
    (runSched [0, 1, 0, 1] raceInit
      [.start (some "tenantA"), .start (some "tenantA")]).1.constructions = 2 ∧
    (runSched [0, 1, 0, 1] raceInit
      [.start (some "tenantA"), .start (some "tenantA")]).2 =
      [.done 0, .done 1] := by
  constructor <;> rfl

/-- Claim C6: when an instance for the (canonicalised) workspace is already
cached, a `get_or_create_rag` call completes in its first atomic segment —
no suspension, no construction, registry state untouched — returning the
cached handle; and a `None` workspace id is canonicalised to the fixed key
"default" before lookup, so all such calls share the one default entry. -/
theorem get_or_create_cached_idempotent (st : RegState) (w : Option String) (i : Nat)
    (h : alistGet st.cache (canonWorkspace w) = some i) :
    regStep st (.start w) = (st, .done i) ∧ canonWorkspace none = "default" := by
  constructor
  · simp [regStep, h]
  · rfl

theorem get_or_create_cached_idempotent_witness :
    regStep { cache := [("default", 7)], nextId := 8, constructions := 1 }
        (.start none) =
      ({ cache := [("default", 7)], nextId := 8, constructions := 1 }, .done 7) ∧
    canonWorkspace none = "default" :=
  get_or_create_cached_idempotent
    { cache := [("default", 7)], nextId := 8, constructions := 1 } none 7 rfl

/-- The ways `UserManager._load_users` can go: no file on disk, or a file
whose read-and-parse either yields a user map or raises (I/O, JSON parse, or
record deserialization). -/
inductive LoadErr where
  | ioError
  | parseError
  | deserializeError
deriving DecidableEq, Repr

/-- The durable input `_load_users` sees. -/
inductive LoadInput where
  | missing
  | fileContent (r : Except LoadErr Store)
deriving Repr

/-- Embedding of `UserManager._load_users`: a missing file falls back to the
environment-seeded accounts; a readable file installs its user map; any
exception in the `try` block logs a warning and leaves an empty store. The
returned Bool records whether the warning was printed. -/
def loadUsers (envSeed : Store) : LoadInput → Store × Bool
  | .missing => (envSeed, false)
  | .fileContent (.ok l) => (l, false)
  | .fileContent (.error _) => ([], true)

/-- A rendering of one user record for persistence, standing in for the JSON
object `_save_users` builds (`created_at` in ISO form, etc.). -/
def serializeUser (u : User) : String :=
  u.username ++ ";" ++ u.email ++ ";" ++ u.password_hash ++ ";" ++ u.salt ++ ";" ++
    toString u.created_at ++ ";" ++ u.workspace

/-- The serialized form of the whole user map, standing in for
`json.dumps(data, indent=2)`. -/
def serializeUsers (st : Store) : String :=
  String.intercalate "," (st.map (fun p => serializeUser p.2))

/-- Embedding of `UserManager._save_users`: serialize the map and write it. The method
has no exception handler, so the write's outcome — success or error — is the
method's outcome. -/
def saveUsers (st : Store) (write : String → Except LoadErr Unit) : Except LoadErr Unit :=
  write (serializeUsers st)

/-- Claim C8: every load-time failure (I/O, parse, or deserialization)
degrades to the empty in-memory store with the warning logged instead of
aborting startup, while every save-time write error propagates unchanged to
the caller of `_save_users`. -/
theorem load_degrades_save_propagates :
    (∀ (envSeed : Store) (e : LoadErr),
      loadUsers envSeed (.fileContent (.error e)) = ([], true)) ∧
    (∀ (st : Store) (write : String → Except LoadErr Unit) (e : LoadErr),
      write (serializeUsers st) = .error e →
      saveUsers st write = .error e) := by
  exact ⟨fun envSeed e => rfl, fun st write e h => h⟩

theorem load_degrades_save_propagates_witness :
    loadUsers [] (.fileContent (.error .parseError)) = ([], true) ∧
    saveUsers [] (fun _ => .error .ioError) = .error .ioError :=
  ⟨load_degrades_save_propagates.1 [] .parseError,
   load_degrades_save_propagates.2 [] (fun _ => .error .ioError) .ioError rfl⟩

end Graph2RAG
